import Mathlib

/-!
Verification of the LangGraph SRS-to-code pipeline (`src/workflow.py` and
`src/nodes/*.py`) against its natural-language specification.

The Python code is shallowly embedded: the shared pipeline state becomes an
explicit record, every external collaborator (LLM completion, telemetry
client, document extraction, subprocesses, the filesystem) becomes an
oracle value `Except String _` supplied through an environment record
(`.error msg` models the collaborator raising an exception whose `str` is
`msg`), and each node's `run` method becomes a pure function from state and
environment to a result.  A result of `Except.error m` for a whole stage
models an exception escaping the stage.
-/

/-! ## Generic string helpers (Python `str` operations, over `List Char`) -/

/-- Contiguous-sublist test: model of Python's `sub in s` for strings. -/
def listHasSub (l sub : List Char) : Bool :=
  l.tails.any (fun t => sub.isPrefixOf t)

/-- Model of Python's `sub in s` on `String`. -/
def hasSub (s sub : String) : Bool :=
  listHasSub s.toList sub.toList

/-- Python `str.strip` whitespace class (ASCII part). -/
def isWsChar (c : Char) : Bool :=
  c = ' ' || c = '\t' || c = '\n' || c = '\r' || c = '\x0b' || c = '\x0c'

/-- Model of Python `str.strip()`. -/
def stripList (l : List Char) : List Char :=
  ((l.dropWhile isWsChar).reverse.dropWhile isWsChar).reverse

/-- Model of Python `str.splitlines()`; pytest output separates lines with
newline characters, so splitting on `'\n'` is the faithful case.  (Python
also drops a trailing empty line; the extra empty chunk produced here never
matches the FAILED-line test, so it is observationally equal.) -/
def splitLinesList (l : List Char) : List (List Char) :=
  l.splitOn '\n'

/-- Model of Python `s.split(sep)[0]`: longest prefix before the first
occurrence of `sep` (the whole string when `sep` does not occur). -/
def beforeFirstSep : List Char → List Char → List Char
  | [], _ => []
  | c :: rest, sep =>
      if sep.isPrefixOf (c :: rest) then []
      else c :: beforeFirstSep rest sep

/-- Model of posix `os.path.basename`: the part after the last `'/'`. -/
def baseNameList (l : List Char) : List Char :=
  ((l.reverse.takeWhile (fun c => c ≠ '/')).reverse)

/-- Model of `os.path.join a b` for the relative paths used in this code. -/
def pathJoin (a b : String) : String :=
  a ++ "/" ++ b

/-- Python `str.find`: index of first occurrence, `-1` when absent. -/
def pyFind : List Char → Char → Int
  | [], _ => -1
  | c :: cs, t =>
      if c = t then 0
      else
        let r := pyFind cs t
        if r < 0 then -1 else r + 1

/-- Python `str.rfind`: index of last occurrence, `-1` when absent. -/
def pyRFind : List Char → Char → Int
  | [], _ => -1
  | c :: cs, t =>
      let r := pyRFind cs t
      if r ≥ 0 then r + 1
      else if c = t then 0 else -1

/-! ## JSON values (results of Python `json.loads`) -/

/-- JSON values as produced by `json.loads`.  Objects keep insertion order,
as Python dicts do; a numeric literal is kept as its source lexeme (the
pipeline never inspects numbers). -/
inductive Json where
  | null : Json
  | bool (b : Bool) : Json
  | num (lexeme : List Char) : Json
  | str (s : String) : Json
  | arr (elems : List Json) : Json
  | obj (fields : List (String × Json)) : Json
deriving Repr

/-! ## A model of `json.loads` (strict mode, as the stdlib default) -/

/-- Skip JSON whitespace. -/
def skipWs : List Char → List Char
  | c :: cs => if c = ' ' || c = '\t' || c = '\n' || c = '\r' then skipWs cs else c :: cs
  | [] => []

/-- Hex digit value, for `\uXXXX` escapes. -/
def hexVal (c : Char) : Option Nat :=
  if '0' ≤ c ∧ c ≤ '9' then some (c.toNat - '0'.toNat)
  else if 'a' ≤ c ∧ c ≤ 'f' then some (c.toNat - 'a'.toNat + 10)
  else if 'A' ≤ c ∧ c ≤ 'F' then some (c.toNat - 'A'.toNat + 10)
  else none

/-- Body of a JSON string literal after the opening quote; returns the
decoded characters and the remainder after the closing quote.  Strict mode:
raw control characters are rejected.  (Surrogate-pair recombination of
`\u` escapes is not modelled; no claim involves it.) -/
def parseStrBody : List Char → List Char → Option (List Char × List Char)
  | [], _ => none
  | '"' :: rest, acc => some (acc.reverse, rest)
  | '\\' :: e :: rest, acc =>
      match e with
      | '"' => parseStrBody rest ('"' :: acc)
      | '\\' => parseStrBody rest ('\\' :: acc)
      | '/' => parseStrBody rest ('/' :: acc)
      | 'b' => parseStrBody rest ('\x08' :: acc)
      | 'f' => parseStrBody rest ('\x0c' :: acc)
      | 'n' => parseStrBody rest ('\n' :: acc)
      | 'r' => parseStrBody rest ('\r' :: acc)
      | 't' => parseStrBody rest ('\t' :: acc)
      | 'u' =>
          match rest with
          | h1 :: h2 :: h3 :: h4 :: rest2 =>
              match hexVal h1, hexVal h2, hexVal h3, hexVal h4 with
              | some a, some b, some c, some d =>
                  let n := ((a * 16 + b) * 16 + c) * 16 + d
                  if h : n.isValidChar then
                    parseStrBody rest2 (Char.ofNatAux n h :: acc)
                  else none
              | _, _, _, _ => none
          | _ => none
      | _ => none
  | c :: rest, acc =>
      if c.toNat < 32 then none else parseStrBody rest (c :: acc)

/-- One or more decimal digits, returned with the remainder. -/
def takeDigits (l : List Char) : List Char × List Char :=
  (l.takeWhile (fun c => c.isDigit), l.dropWhile (fun c => c.isDigit))

/-- JSON number lexeme after an optional leading `'-'` has been noted:
`int [frac] [exp]` with the leading-zero rule.  Returns the lexeme
(without sign) and the remainder. -/
def parseNumBody (l : List Char) : Option (List Char × List Char) :=
  match l with
  | [] => none
  | c :: _ =>
      if ¬ c.isDigit then none
      else
        let (intPart, rest1) := takeDigits l
        if intPart.length > 1 ∧ intPart.headI = '0' then none
        else
          let (fracPart, rest2) :=
            match rest1 with
            | '.' :: r =>
                let (ds, r2) := takeDigits r
                if ds = [] then (([] : List Char), rest1) else ('.' :: ds, r2)
            | _ => (([] : List Char), rest1)
          match rest2 with
          | e :: r3 =>
              if e = 'e' ∨ e = 'E' then
                let (sign, r4) :=
                  match r3 with
                  | '+' :: r => (['+'], r)
                  | '-' :: r => (['-'], r)
                  | _ => (([] : List Char), r3)
                let (ds, r5) := takeDigits r4
                if ds = [] then some (intPart ++ fracPart, rest2)
                else some (intPart ++ fracPart ++ e :: sign ++ ds, r5)
              else some (intPart ++ fracPart, rest2)
          | [] => some (intPart ++ fracPart, rest2)

mutual

/-- Fuel-indexed JSON value: model of the stdlib decoder's value parser. -/
def parseVal : Nat → List Char → Option (Json × List Char)
  | 0, _ => none
  | Nat.succ fuel, cs =>
      match skipWs cs with
      | [] => none
      | c :: rest =>
          if c = '{' then
            match skipWs rest with
            | '}' :: rest2 => some (Json.obj [], rest2)
            | other => parseObjFields fuel other []
          else if c = '[' then
            match skipWs rest with
            | ']' :: rest2 => some (Json.arr [], rest2)
            | other => parseArrElems fuel other []
          else if c = '"' then
            match parseStrBody rest [] with
            | some (chars, rest2) => some (Json.str (String.mk chars), rest2)
            | none => none
          else if c = 't' then
            match rest with
            | 'r' :: 'u' :: 'e' :: rest2 => some (Json.bool true, rest2)
            | _ => none
          else if c = 'f' then
            match rest with
            | 'a' :: 'l' :: 's' :: 'e' :: rest2 => some (Json.bool false, rest2)
            | _ => none
          else if c = 'n' then
            match rest with
            | 'u' :: 'l' :: 'l' :: rest2 => some (Json.null, rest2)
            | _ => none
          else if c = 'N' then
            match rest with
            | 'a' :: 'N' :: rest2 => some (Json.num ['N', 'a', 'N'], rest2)
            | _ => none
          else if c = 'I' then
            match rest with
            | 'n' :: 'f' :: 'i' :: 'n' :: 'i' :: 't' :: 'y' :: rest2 =>
                some (Json.num "Infinity".toList, rest2)
            | _ => none
          else if c = '-' then
            match rest with
            | 'I' :: 'n' :: 'f' :: 'i' :: 'n' :: 'i' :: 't' :: 'y' :: rest2 =>
                some (Json.num "-Infinity".toList, rest2)
            | _ =>
                match parseNumBody rest with
                | some (lex, rest2) => some (Json.num ('-' :: lex), rest2)
                | none => none
          else
            match parseNumBody (c :: rest) with
            | some (lex, rest2) => some (Json.num lex, rest2)
            | none => none

/-- Object members from the first key on (Python dict semantics: a repeated
key overwrites the earlier value in place). -/
def parseObjFields : Nat → List Char → List (String × Json) → Option (Json × List Char)
  | 0, _, _ => none
  | Nat.succ fuel, cs, acc =>
      match cs with
      | '"' :: rest =>
          match parseStrBody rest [] with
          | some (keyChars, rest2) =>
              match skipWs rest2 with
              | ':' :: rest3 =>
                  match parseVal fuel rest3 with
                  | some (v, rest4) =>
                      let key := String.mk keyChars
                      let acc2 :=
                        if acc.any (fun p => p.1 == key) then
                          acc.map (fun p => if p.1 == key then (key, v) else p)
                        else acc ++ [(key, v)]
                      match skipWs rest4 with
                      | ',' :: rest5 => parseObjFields fuel (skipWs rest5) acc2
                      | '}' :: rest5 => some (Json.obj acc2, rest5)
                      | _ => none
                  | none => none
              | _ => none
          | none => none
      | _ => none

/-- Array elements from the first element on. -/
def parseArrElems : Nat → List Char → List Json → Option (Json × List Char)
  | 0, _, _ => none
  | Nat.succ fuel, cs, acc =>
      match parseVal fuel cs with
      | some (v, rest) =>
          match skipWs rest with
          | ',' :: rest2 => parseArrElems fuel rest2 (acc ++ [v])
          | ']' :: rest2 => some (Json.arr (acc ++ [v]), rest2)
          | _ => none
      | none => none

end

/-- Model of `json.loads`: the whole input (up to surrounding whitespace)
must be a single JSON value; `none` models `json.JSONDecodeError`.  The
fuel `2 * length + 2` dominates the decoder's recursion depth. -/
def parseJson (cs : List Char) : Option Json :=
  match parseVal (2 * cs.length + 2) cs with
  | some (v, rest) => if skipWs rest = [] then some v else none
  | none => none

/-! ## Requirements extraction (`src/nodes/srs_parser.py`, free functions) -/

/-- Python `k in j` for a string key `k` (`in` is membership for dicts and
lists, substring for strings, and a `TypeError` otherwise). -/
def pyIn (k : String) (j : Json) : Except String Bool :=
  match j with
  | .obj fs => .ok (fs.any (fun p => p.1 == k))
  | .arr xs => .ok (xs.any (fun x => match x with | .str s => s == k | _ => false))
  | .str s => .ok (hasSub s k)
  | _ => .error "TypeError: argument of type is not iterable"

/-- Python `j[k] = v`: in-place update for dicts, `TypeError` otherwise. -/
def jsonSetKey (j : Json) (k : String) (v : Json) : Except String Json :=
  match j with
  | .obj fs =>
      if fs.any (fun p => p.1 == k) then
        .ok (.obj (fs.map (fun p => if p.1 == k then (k, v) else p)))
      else .ok (.obj (fs ++ [(k, v)]))
  | .arr _ => .error "TypeError: list indices must be integers or slices, not str"
  | _ => .error "TypeError: object does not support item assignment"

/-- Python `j.get(k, d)`: dicts only, `AttributeError` otherwise. -/
def pyGetDefault (j : Json) (k : String) (d : Json) : Except String Json :=
  match j with
  | .obj fs => .ok (((fs.find? (fun p => p.1 == k)).map (fun p => p.2)).getD d)
  | _ => .error "AttributeError: object has no attribute get"

/-- First-match lookup in a JSON object (`none` off objects/missing keys). -/
def jsonGetKey (j : Json) (k : String) : Option Json :=
  match j with
  | .obj fs => (fs.find? (fun p => p.1 == k)).map (fun p => p.2)
  | _ => none

/-- The fallback structure `analyze_requirements` returns when JSON parsing
fails (`srs_parser.py` lines 86-92): note the sentinel string in
`functional_requirements`. -/
def fallbackRequirements : Json :=
  .obj [("functional_requirements", .arr [.str "Failed to parse requirements"]),
        ("api_endpoints", .arr []),
        ("db_schema", .obj [("tables", .arr [])]),
        ("auth_requirements", .obj [("type", .str "Unknown"), ("features", .arr [])])]

/-- Modelled from the spec: the requirements object §4.1 says a failed
decode should produce — every top-level key backfilled with its
type-appropriate EMPTY default (no sentinel content).  Used only to state
how the source's fallback deviates from the specified one. -/
def specEmptyDefaults : Json :=
  .obj [("functional_requirements", .arr []),
        ("api_endpoints", .arr []),
        ("db_schema", .obj [("tables", .arr [])]),
        ("auth_requirements", .obj [("type", .str "Unknown"), ("features", .arr [])])]

/-- The decode policy of `analyze_requirements` (lines 74-84): slice from
the first `'{'` to the last `'}'` and decode it; when no such slice exists,
decode the whole response. -/
def pyDecodePolicy (raw : List Char) : Option Json :=
  let js := pyFind raw '{'
  let je := pyRFind raw '}' + 1
  if js ≥ 0 ∧ je > js then
    parseJson ((raw.drop js.toNat).take (je - js).toNat)
  else parseJson raw

/-- `analyze_requirements` after the completion response has arrived:
decode per the policy, fall back to the sentinel structure on failure. -/
def analyzeRequirementsParse (raw : List Char) : Json :=
  (pyDecodePolicy raw).getD fallbackRequirements

def requiredKeys : List String :=
  ["functional_requirements", "api_endpoints", "db_schema", "auth_requirements"]

/-- Per-key default used by the backfill loop (lines 112-121). -/
def keyDefault (k : String) : Json :=
  if k = "functional_requirements" then .arr []
  else if k = "api_endpoints" then .arr []
  else if k = "db_schema" then .obj [("tables", .arr [])]
  else .obj [("type", .str "Unknown"), ("features", .arr [])]

/-- `[key for key in required_keys if key not in requirements]`. -/
def missingKeysIn (j : Json) : Except String (List String) :=
  requiredKeys.foldlM
    (fun acc k => do
      let b ← pyIn k j
      pure (if b then acc else acc ++ [k]))
    []

/-- The backfill loop: assign each missing key its default. -/
def backfillAll (j : Json) (missing : List String) : Except String Json :=
  missing.foldlM (fun r k => jsonSetKey r k (keyDefault k)) j

/-- State threaded through the free `srs_parser` stage function. -/
structure SrsState where
  srs_content : String
  requirements : Option Json
  logs : List String
  errors : List String

/-- Collaborators of `srs_parser`: the `.docx` text extraction and the LLM
completion call (`.error m` models the call raising with message `m`). -/
structure SrsEnv where
  docxText : Except String String
  llm : String → Except String String

structure SrsOutcome where
  state : SrsState
  llmCalled : Bool

/-- The `except` branch of `srs_parser` (lines 131-134): it appends BOTH an
error entry and a log entry. -/
def srsFail (s : SrsState) (msg : String) : SrsState :=
  { s with errors := s.errors ++ ["SRS parsing error: " ++ msg],
           logs := s.logs ++ ["Error in SRS parsing: " ++ msg] }

def warnMsg (missing : List String) : String :=
  "Warning: Added missing keys in requirements: " ++ String.intercalate ", " missing

/-- Lines 107-129 of `srs_parser`: validate/backfill the decoded
requirements and record them in the state. -/
def srsParseBody (req : Json) (s : SrsState) : SrsState :=
  match missingKeysIn req with
  | .error e => srsFail s e
  | .ok missing =>
      match backfillAll req missing with
      | .error e => srsFail s e
      | .ok req2 =>
          let s1 := if missing.isEmpty then s
                    else { s with logs := s.logs ++ [warnMsg missing] }
          { s1 with requirements := some req2,
                    logs := s1.logs ++ ["Successfully parsed SRS document"] }

/-- The free stage function `srs_parser` (lines 94-134). -/
def srsParserFn (env : SrsEnv) (s : SrsState) : SrsOutcome :=
  if s.srs_content = "" then ⟨srsFail s "Empty SRS content", false⟩
  else
    match (if ".docx".toList.isSuffixOf s.srs_content.toList then env.docxText
           else .ok s.srs_content) with
    | .error e => ⟨srsFail s e, false⟩
    | .ok content =>
        match env.llm content with
        | .error e => ⟨srsFail s e, true⟩
        | .ok raw => ⟨srsParseBody (analyzeRequirementsParse raw.toList) s, true⟩

/-! ## Workflow state and the five node `run` methods -/

/-- The state dict threaded through the LangGraph workflow
(`requirements := none` models the key being absent). -/
structure WfState where
  srs_path : String
  requirements : Option Json
  logs : List String
  errors : List String

/-! ### Project initializer (`src/nodes/project_initializer.py`) -/

/-- Outcome of one external activity: success, a
`subprocess.CalledProcessError`, or any other exception. -/
inductive ActOutcome where
  | ok : ActOutcome
  | cpe (msg : String) : ActOutcome
  | exc (msg : String) : ActOutcome

/-- Net exception message of one activity as seen by `run`:
`create_project_structure` wraps every exception (`catchAll := true`),
while `setup_podman_postgres` and `create_virtual_environment` wrap only
`CalledProcessError` and let other exceptions propagate unwrapped. -/
def runActivity (wrap : String) (catchAll : Bool) (o : ActOutcome) : Except String Unit :=
  match o with
  | .ok => .ok ()
  | .cpe m => .error (wrap ++ m)
  | .exc m => if catchAll then .error (wrap ++ m) else .error m

structure InitEnv where
  structureOutcome : ActOutcome
  postgresOutcome : ActOutcome
  venvOutcome : ActOutcome

/-- Result of `ProjectInitializerNode.run` plus the list of activities that
were actually invoked (in order). -/
structure InitTrace where
  state : WfState
  route : String
  invoked : List String

def initFail (s : WfState) (e : String) : WfState :=
  { s with errors := s.errors ++ ["Project initialization error: " ++ e],
           logs := s.logs ++ ["Error initializing project: " ++ e] }

/-- `ProjectInitializerNode.run` (lines 98-113): three activities invoked
sequentially; the first failure aborts the rest. -/
def projectInitializerRun (s : WfState) (env : InitEnv) : InitTrace :=
  match runActivity "Error creating project structure: " true env.structureOutcome with
  | .error e => ⟨initFail s e, "error_handler", ["create_project_structure"]⟩
  | .ok _ =>
      match runActivity "Error setting up Podman PostgreSQL: " false env.postgresOutcome with
      | .error e => ⟨initFail s e, "error_handler",
          ["create_project_structure", "setup_podman_postgres"]⟩
      | .ok _ =>
          match runActivity "Error creating virtual environment: " false env.venvOutcome with
          | .error e => ⟨initFail s e, "error_handler",
              ["create_project_structure", "setup_podman_postgres", "create_virtual_environment"]⟩
          | .ok _ =>
              ⟨{ s with logs := s.logs ++ ["Successfully initialized project structure"] },
               "test_generator",
               ["create_project_structure", "setup_podman_postgres", "create_virtual_environment"]⟩

/-- `os.makedirs(path, exist_ok := existOk)` over a directory-set model. -/
def mkdirsModel (dirs : List String) (path : String) (existOk : Bool) :
    Except String (List String) :=
  if path ∈ dirs then
    if existOk then .ok dirs else .error ("FileExistsError: " ++ path)
  else .ok (dirs ++ [path])

/-- The six directories `create_project_structure` creates, in order. -/
def projectDirs : List String :=
  ["generated_api", "generated_api/app", "generated_api/app/api",
   "generated_api/app/models", "generated_api/app/services",
   "generated_api/app/api/routes"]

/-- The directory-creation loop of `create_project_structure` (lines 25-26):
every call passes `exist_ok=True`. -/
def createProjectStructureDirs (dirs : List String) : Except String (List String) :=
  projectDirs.foldlM (fun d p => mkdirsModel d p true) dirs

/-! ### SRS parser node (`SRSParserNode.run`, lines 216-254) -/

structure SrsNodeEnv where
  createRun : Except String Unit
  /-- Inner outcome of `extract_requirements` (before its own
  `Error extracting requirements:` wrapper). -/
  extract : Except String Json
  updSuccess : Except String Unit
  updError : Except String Unit

/-- The `except` branch (lines 241-254): appends to BOTH lists, then calls
`update_run`; if that telemetry call itself raises, the exception escapes. -/
def srsNodeHandler (s : WfState) (env : SrsNodeEnv) (e : String) :
    Except String (WfState × String) :=
  let s2 := { s with errors := s.errors ++ ["Error parsing SRS document: " ++ e],
                     logs := s.logs ++ ["Failed to parse SRS document"] }
  match env.updError with
  | .ok _ => .ok (s2, "error_handler")
  | .error u => .error u

def srsParserNodeRun (s : WfState) (env : SrsNodeEnv) : Except String (WfState × String) :=
  match env.createRun with
  | .error e => srsNodeHandler s env e
  | .ok _ =>
      match env.extract with
      | .error m => srsNodeHandler s env ("Error extracting requirements: " ++ m)
      | .ok req =>
          let s2 := { s with requirements := some req,
                             logs := s.logs ++
                               ["Successfully parsed SRS document and extracted requirements"] }
          match env.updSuccess with
          | .ok _ => .ok (s2, "test_generator")
          | .error e => srsNodeHandler s2 env e

/-! ### Test generator node (`TestGeneratorNode.run`, lines 207-253) -/

structure TestGenEnv where
  createRun : Except String Unit
  ensureDirs : Except String Unit
  genApi : Except String Unit
  genModels : Except String Unit
  genAuth : Except String Unit
  updSuccess : Except String Unit
  updError : Except String Unit

def testGenHandler (s : WfState) (env : TestGenEnv) (e : String) :
    Except String (WfState × String) :=
  let s2 := { s with errors := s.errors ++ ["Test generation error: " ++ e],
                     logs := s.logs ++ ["Error generating tests: " ++ e] }
  match env.updError with
  | .ok _ => .ok (s2, "error_handler")
  | .error u => .error u

def testGeneratorRun (s : WfState) (env : TestGenEnv) : Except String (WfState × String) :=
  let req := s.requirements.getD (Json.obj [])
  match env.createRun with
  | .error e => testGenHandler s env e
  | .ok _ =>
    match env.ensureDirs with
    | .error e => testGenHandler s env e
    | .ok _ =>
      match pyIn "endpoints" req with
      | .error e => testGenHandler s env e
      | .ok hasE =>
        match (if hasE then env.genApi else .ok ()) with
        | .error e => testGenHandler s env e
        | .ok _ =>
          match pyIn "models" req with
          | .error e => testGenHandler s env e
          | .ok hasM =>
            match (if hasM then env.genModels else .ok ()) with
            | .error e => testGenHandler s env e
            | .ok _ =>
              match pyIn "auth" req with
              | .error e => testGenHandler s env e
              | .ok hasA =>
                match (if hasA then env.genAuth else .ok ()) with
                | .error e => testGenHandler s env e
                | .ok _ =>
                  let s2 := { s with logs := s.logs ++ ["Successfully generated test cases"] }
                  match env.updSuccess with
                  | .error e => testGenHandler s2 env e
                  | .ok _ => .ok (s2, "code_generator")

/-! ### Code generator node (`CodeGeneratorNode.run`, lines 249-283) -/

structure CodeGenEnv where
  /-- `create_run` at lines 252-255 sits BEFORE the `try` block. -/
  createRun : Except String Unit
  ensureDirs : Except String Unit
  genModels : Except String Unit
  genRoutes : Except String Unit
  genServices : Except String Unit
  updSuccess : Except String Unit
  updError : Except String Unit

def codeGenHandler (s : WfState) (env : CodeGenEnv) (e : String) :
    Except String (WfState × String) :=
  let s2 := { s with errors := s.errors ++ ["Code generation error: " ++ e],
                     logs := s.logs ++ ["Error generating code: " ++ e] }
  match env.updError with
  | .ok _ => .ok (s2, "error_handler")
  | .error u => .error u

def codeGeneratorRun (s : WfState) (env : CodeGenEnv) : Except String (WfState × String) :=
  match env.createRun with
  | .error e => .error e
  | .ok _ =>
    let req := s.requirements.getD (Json.obj [])
    match pyGetDefault req "endpoints" (Json.arr []) with
    | .error e => codeGenHandler s env e
    | .ok _ =>
      match pyGetDefault req "models" (Json.arr []) with
      | .error e => codeGenHandler s env e
      | .ok _ =>
        match env.ensureDirs with
        | .error e => codeGenHandler s env e
        | .ok _ =>
          match env.genModels with
          | .error e => codeGenHandler s env e
          | .ok _ =>
            match env.genRoutes with
            | .error e => codeGenHandler s env e
            | .ok _ =>
              match env.genServices with
              | .error e => codeGenHandler s env e
              | .ok _ =>
                let s2 := { s with logs := s.logs ++
                  ["Successfully generated application code"] }
                match env.updSuccess with
                | .error e => codeGenHandler s2 env e
                | .ok _ => .ok (s2, "debugger")

/-! ### Debugger node (`DebuggerNode`, `src/nodes/debugger.py`) -/

def testDirConst : String := "generated_api/tests"

/-- A stripped FAILED line of pytest output (lines 63). -/
def isFailedLine (l : List Char) : Bool :=
  listHasSub l "::".toList && listHasSub l "FAILED".toList

/-- Path normalization for one FAILED line (lines 64-75). -/
def failedLinePath (l : List Char) : String :=
  let filePath := beforeFirstSep l "::".toList
  if "tests/".toList.isPrefixOf filePath || "tests\\".toList.isPrefixOf filePath then
    pathJoin testDirConst (String.mk (baseNameList filePath))
  else pathJoin testDirConst (String.mk filePath)

/-- `DebuggerNode._extract_failing_files` (lines 56-79).  Note: every
FAILED line appends, with no de-duplication. -/
def extractFailingFiles (testOutput : String) : List String :=
  (splitLinesList testOutput.toList).foldl
    (fun acc line =>
      let l := stripList line
      if isFailedLine l then acc ++ [failedLinePath l] else acc)
    []

/-- The repair prompt (template text abbreviated: only that it is a
function of the failure output and the current file content matters). -/
def createDebugPrompt (testOutput fileContent : String) : String :=
  "Analyze the following test failure and suggest fixes. Test Output: "
    ++ testOutput ++ " Current Code: " ++ fileContent

/-- `open(p).read()` over an association-list filesystem. -/
def readFs (fs : List (String × String)) (p : String) : Except String String :=
  match fs.find? (fun e => e.1 == p) with
  | some e => .ok e.2
  | none => .error ("FileNotFoundError: " ++ p)

/-- `open(p, 'w').write(content)`: full overwrite (create if absent). -/
def writeFs (fs : List (String × String)) (p : String) (content : String) :
    List (String × String) :=
  if fs.any (fun e => e.1 == p) then
    fs.map (fun e => if e.1 == p then (p, content) else e)
  else fs ++ [(p, content)]

/-- The per-file loop of `fix_test_failures` (lines 90-110): read the
current content, prompt the LLM, overwrite; the second component of the
result lists the paths processed, in order.  (The per-file telemetry
`create_run` calls do not touch the state and are elided.) -/
def fixLoop (testOutput : String) (llm : String → String) :
    List String → List (String × String) → List String →
    Except String (List (String × String) × List String)
  | [], fs, processed => .ok (fs, processed)
  | p :: ps, fs, processed =>
      match readFs fs p with
      | .error e => .error e
      | .ok cur =>
          let fixed := llm (createDebugPrompt testOutput cur)
          fixLoop testOutput llm ps (writeFs fs p fixed) (processed ++ [p])

/-- `DebuggerNode.fix_test_failures` (lines 81-122): the single repair pass
over all files extracted from the failure output; any exception is
re-raised wrapped as `Error during debugging: ...`. -/
def fixTestFailures (testOutput : String) (llm : String → String)
    (fs : List (String × String)) :
    Except String (List (String × String) × List String) :=
  match fixLoop testOutput llm (extractFailingFiles testOutput) fs [] with
  | .ok r => .ok r
  | .error e => .error ("Error during debugging: " ++ e)

structure DebugEnv where
  /-- `create_run` at lines 126-129 sits BEFORE the `try` block. -/
  createRun : Except String Unit
  /-- Result of the first `run_tests()` call: (passed, raw output). -/
  firstRun : Bool × String
  /-- Net outcome of `fix_test_failures` on the first failure output. -/
  fixResult : Except String Unit
  /-- Result of the re-run of `run_tests()` after the repair pass. -/
  secondRun : Bool × String
  updSuccess : Except String Unit
  updFixed : Except String Unit
  updError : Except String Unit

/-- Result of `DebuggerNode.run` plus how often the repair sub-routine and
the test suite were invoked. -/
structure DebugTrace where
  result : Except String (WfState × String)
  fixCalls : Nat
  testCalls : Nat

/-- The `except` branch of `DebuggerNode.run` (lines 158-166). -/
def debugHandler (s : WfState) (env : DebugEnv) (e : String) :
    Except String (WfState × String) :=
  let s2 := { s with errors := s.errors ++ ["Debugging error: " ++ e],
                     logs := s.logs ++ ["Error during debugging: " ++ e] }
  match env.updError with
  | .ok _ => .ok (s2, "error_handler")
  | .error u => .error u

/-- `DebuggerNode.run` (lines 124-166). -/
def debuggerRunT (s : WfState) (env : DebugEnv) : DebugTrace :=
  match env.createRun with
  | .error e => ⟨.error e, 0, 0⟩
  | .ok _ =>
      if env.firstRun.1 then
        let s2 := { s with logs := s.logs ++ ["All tests passed successfully"] }
        match env.updSuccess with
        | .ok _ => ⟨.ok (s2, "documentation_generator"), 0, 1⟩
        | .error e => ⟨debugHandler s2 env e, 0, 1⟩
      else
        let s2 := { s with logs := s.logs ++ ["Found test failures, attempting fixes"] }
        match env.fixResult with
        | .error e => ⟨debugHandler s2 env e, 1, 1⟩
        | .ok _ =>
            if env.secondRun.1 then
              let s3 := { s2 with logs := s2.logs ++ ["Successfully fixed all test failures"] }
              match env.updFixed with
              | .ok _ => ⟨.ok (s3, "documentation_generator"), 1, 2⟩
              | .error e => ⟨debugHandler s3 env e, 1, 2⟩
            else
              ⟨debugHandler s2 env "Unable to fix all test failures", 1, 2⟩

/-! ## The workflow graph (`src/workflow.py`) -/

inductive EdgeCond where
  | isSuccess : EdgeCond
  | isError : EdgeCond

/-- The two guard predicates of `create_workflow` (lines 48-52), applied to
the routing string a node returned. -/
def condHolds (c : EdgeCond) (route : String) : Bool :=
  match c with
  | .isSuccess => route != "error_handler"
  | .isError => route == "error_handler"

/-- The edge table of `create_workflow` (lines 55-68), in declaration
order. -/
def workflowEdges : List (String × EdgeCond × String) :=
  [("project_initializer", .isSuccess, "srs_parser"),
   ("project_initializer", .isError, "error_handler"),
   ("srs_parser", .isSuccess, "test_generator"),
   ("srs_parser", .isError, "error_handler"),
   ("test_generator", .isSuccess, "code_generator"),
   ("test_generator", .isError, "error_handler"),
   ("code_generator", .isSuccess, "debugger"),
   ("code_generator", .isError, "error_handler"),
   ("debugger", .isSuccess, "complete"),
   ("debugger", .isError, "error_handler")]

/-- `workflow.set_entry_point("project_initializer")` (line 71). -/
def workflowEntryPoint : String := "project_initializer"

/-- Edge selection: the first declared edge out of `n` whose guard accepts
the returned route. -/
def nextNodeAfter (n : String) (route : String) : Option String :=
  ((workflowEdges.filter (fun e => e.1 == n && condHolds e.2.1 route)).head?).map
    (fun e => e.2.2)

/-- The initial state dict of `run_workflow` (lines 85-90). -/
def initialState (p : String) : WfState :=
  { srs_path := p, requirements := some (Json.obj []), logs := [], errors := [] }

/-- `run_workflow` (lines 78-108): build and execute the workflow (the
combined outcome is the oracle `exec`); on any exception return the fixed
failure dict (which carries no `requirements` key). -/
def runWorkflow (p : String) (exec : WfState → Except String WfState) : WfState :=
  match exec (initialState p) with
  | .ok s => s
  | .error e =>
      { srs_path := p, requirements := none,
        logs := ["Workflow failed: " ++ e], errors := [e] }

/-! ## Predicates used to state the claims -/

/-- The spec's per-invocation growth invariant, as claimed: exactly one of
the two lists grows, and the other is unchanged. -/
def exactlyOneListGrew (logs0 errors0 logs1 errors1 : List String) : Prop :=
  (logs1.length > logs0.length ∧ errors1 = errors0) ∨
  (errors1.length > errors0.length ∧ logs1 = logs0)

/-- The growth pattern the code actually exhibits, for a stage invocation
that returned normally: a non-sink route grows only the log list; a sink
route grows BOTH lists.  An escaped exception (`Except.error`) is outside
the scope of the pattern. -/
def growthPattern (s : WfState) (res : Except String (WfState × String)) : Prop :=
  match res with
  | .ok (s2, r) =>
      (r ≠ "error_handler" → s2.logs.length > s.logs.length ∧ s2.errors = s.errors) ∧
      (r = "error_handler" → s2.errors.length > s.errors.length ∧
        s2.logs.length > s.logs.length)
  | .error _ => True

/-- The stripped FAILED lines of a test report, in order (the
characterization of `_extract_failing_files` input lines). -/
def failedLinesOf (testOutput : String) : List (List Char) :=
  ((splitLinesList testOutput.toList).map stripList).filter isFailedLine

/-- Key-presence in the association-list filesystem. -/
def fsHasKey (fs : List (String × String)) (p : String) : Bool :=
  fs.any (fun e => e.1 == p)

/-! ## Claim theorems -/

/-- C10: `run_workflow` returns normally for every input path: when
workflow construction/execution raises `e`, the returned dict has
`errors = [str(e)]` and a single log entry beginning `Workflow failed:`;
otherwise it returns the final pipeline state unchanged. -/
theorem c10_run_workflow_never_raises (p : String)
    (exec : WfState → Except String WfState) :
    (∃ s, exec (initialState p) = .ok s ∧ runWorkflow p exec = s) ∨
    (∃ e, exec (initialState p) = .error e ∧ (runWorkflow p exec).errors = [e] ∧
      (runWorkflow p exec).logs = ["Workflow failed: " ++ e]) := by
  cases h : exec (initialState p) with
  | ok s => exact Or.inl ⟨s, rfl, by simp [runWorkflow, h]⟩
  | error e => exact Or.inr ⟨e, rfl, by simp [runWorkflow, h], by simp [runWorkflow, h]⟩

/-- C1 counterexample: the claim puts Requirements Extraction first, but
the declared entry point is `project_initializer`, and the SRS-parser
stage's success edge leads to `test_generator`, not back to
`project_initializer`. -/
theorem c1_counterexample :
    workflowEntryPoint ≠ "srs_parser" ∧
    nextNodeAfter "srs_parser" "test_generator" ≠ some "project_initializer" ∧
    nextNodeAfter "srs_parser" "test_generator" = some "test_generator" := by
  refine ⟨by decide, by decide, by decide⟩

/-- C1 (amended): the pipeline order is Project Initialization →
Requirements Extraction → Test-Suite Generation → Code Generation →
Verification/Repair → completion; Project Initialization is the entry
stage, every stage's error edge leads to `error_handler`. -/
theorem c1_amended_stage_order :
    workflowEntryPoint = "project_initializer" ∧
    (∀ r, r ≠ "error_handler" →
      nextNodeAfter "project_initializer" r = some "srs_parser" ∧
      nextNodeAfter "srs_parser" r = some "test_generator" ∧
      nextNodeAfter "test_generator" r = some "code_generator" ∧
      nextNodeAfter "code_generator" r = some "debugger" ∧
      nextNodeAfter "debugger" r = some "complete") ∧
    (∀ n, n ∈ (["project_initializer", "srs_parser", "test_generator",
                "code_generator", "debugger"] : List String) →
      nextNodeAfter n "error_handler" = some "error_handler") := by
  refine ⟨rfl, ?_, ?_⟩
  · intro r hr
    have hb : (r == "error_handler") = false := by
      simp [hr]
    refine ⟨?_, ?_, ?_, ?_, ?_⟩ <;>
      simpa [nextNodeAfter, workflowEdges, condHolds, hb] using hr
  · intro n hn
    fin_cases hn <;> decide

/-! ### Per-stage growth lemmas (shared by several claims) -/

lemma srsNodeHandler_growth (s s2 : WfState) (env : SrsNodeEnv) (e : String)
    (he : s2.errors = s.errors) (hl : s.logs.length ≤ s2.logs.length) :
    growthPattern s (srsNodeHandler s2 env e) := by
  unfold srsNodeHandler growthPattern
  cases env.updError <;> simp_all <;> omega

lemma testGenHandler_growth (s s2 : WfState) (env : TestGenEnv) (e : String)
    (he : s2.errors = s.errors) (hl : s.logs.length ≤ s2.logs.length) :
    growthPattern s (testGenHandler s2 env e) := by
  unfold testGenHandler growthPattern
  cases env.updError <;> simp_all <;> omega

lemma codeGenHandler_growth (s s2 : WfState) (env : CodeGenEnv) (e : String)
    (he : s2.errors = s.errors) (hl : s.logs.length ≤ s2.logs.length) :
    growthPattern s (codeGenHandler s2 env e) := by
  unfold codeGenHandler growthPattern
  cases env.updError <;> simp_all <;> omega

lemma debugHandler_growth (s s2 : WfState) (env : DebugEnv) (e : String)
    (he : s2.errors = s.errors) (hl : s.logs.length ≤ s2.logs.length) :
    growthPattern s (debugHandler s2 env e) := by
  unfold debugHandler growthPattern
  cases env.updError <;> simp_all <;> omega

lemma projectInitializerRun_growth (s : WfState) (env : InitEnv) :
    growthPattern s (.ok ((projectInitializerRun s env).state,
      (projectInitializerRun s env).route)) := by
  unfold projectInitializerRun
  cases h1 : runActivity "Error creating project structure: " true env.structureOutcome <;>
    cases h2 : runActivity "Error setting up Podman PostgreSQL: " false env.postgresOutcome <;>
      cases h3 : runActivity "Error creating virtual environment: " false env.venvOutcome <;>
        simp_all [growthPattern, initFail]

lemma srsParserNodeRun_growth (s : WfState) (env : SrsNodeEnv) :
    growthPattern s (srsParserNodeRun s env) := by
  unfold srsParserNodeRun
  cases hc : env.createRun with
  | error e => exact srsNodeHandler_growth s s env e rfl le_rfl
  | ok u =>
    cases hx : env.extract with
    | error m => exact srsNodeHandler_growth s s env _ rfl le_rfl
    | ok req =>
      cases hu : env.updSuccess with
      | ok u2 => simp [growthPattern]
      | error e =>
        refine srsNodeHandler_growth s _ env e rfl ?_
        simp

lemma testGeneratorRun_growth (s : WfState) (env : TestGenEnv) :
    growthPattern s (testGeneratorRun s env) := by
  simp only [testGeneratorRun]
  cases hc : env.createRun with
  | error e => simpa using testGenHandler_growth s s env e rfl le_rfl
  | ok _ =>
  cases hd : env.ensureDirs with
  | error e => simpa using testGenHandler_growth s s env e rfl le_rfl
  | ok _ =>
  cases hE : pyIn "endpoints" (s.requirements.getD (Json.obj [])) with
  | error e => simpa using testGenHandler_growth s s env e rfl le_rfl
  | ok hasE =>
  cases hga : (if hasE then env.genApi else Except.ok ()) with
  | error e => simpa [hga] using testGenHandler_growth s s env e rfl le_rfl
  | ok _ =>
  cases hM : pyIn "models" (s.requirements.getD (Json.obj [])) with
  | error e => simpa [hga] using testGenHandler_growth s s env e rfl le_rfl
  | ok hasM =>
  cases hgm : (if hasM then env.genModels else Except.ok ()) with
  | error e => simpa [hga, hgm] using testGenHandler_growth s s env e rfl le_rfl
  | ok _ =>
  cases hA : pyIn "auth" (s.requirements.getD (Json.obj [])) with
  | error e => simpa [hga, hgm] using testGenHandler_growth s s env e rfl le_rfl
  | ok hasA =>
  cases hgau : (if hasA then env.genAuth else Except.ok ()) with
  | error e => simpa [hga, hgm, hgau] using testGenHandler_growth s s env e rfl le_rfl
  | ok _ =>
  cases hu : env.updSuccess with
  | error e =>
      have h := testGenHandler_growth s
        ({ s with logs := s.logs ++ ["Successfully generated test cases"] }) env e rfl (by simp)
      simpa [hga, hgm, hgau] using h
  | ok _ => simp [growthPattern, hga, hgm, hgau]

lemma codeGeneratorRun_growth (s : WfState) (env : CodeGenEnv) :
    growthPattern s (codeGeneratorRun s env) := by
  simp only [codeGeneratorRun]
  cases hc : env.createRun with
  | error e => simp [growthPattern]
  | ok _ =>
  cases h1 : pyGetDefault (s.requirements.getD (Json.obj [])) "endpoints" (Json.arr []) with
  | error e => simpa using codeGenHandler_growth s s env e rfl le_rfl
  | ok _ =>
  cases h2 : pyGetDefault (s.requirements.getD (Json.obj [])) "models" (Json.arr []) with
  | error e => simpa using codeGenHandler_growth s s env e rfl le_rfl
  | ok _ =>
  cases hd : env.ensureDirs with
  | error e => simpa using codeGenHandler_growth s s env e rfl le_rfl
  | ok _ =>
  cases hm : env.genModels with
  | error e => simpa using codeGenHandler_growth s s env e rfl le_rfl
  | ok _ =>
  cases hr : env.genRoutes with
  | error e => simpa using codeGenHandler_growth s s env e rfl le_rfl
  | ok _ =>
  cases hs : env.genServices with
  | error e => simpa using codeGenHandler_growth s s env e rfl le_rfl
  | ok _ =>
  cases hu : env.updSuccess with
  | error e =>
      have h := codeGenHandler_growth s
        ({ s with logs := s.logs ++ ["Successfully generated application code"] }) env e rfl
        (by simp)
      simpa using h
  | ok _ => simp [growthPattern]

lemma debuggerRunT_growth (s : WfState) (env : DebugEnv) :
    growthPattern s (debuggerRunT s env).result := by
  simp only [debuggerRunT]
  cases hc : env.createRun with
  | error e => simp [growthPattern]
  | ok _ =>
  cases hp1 : env.firstRun.1 with
  | true =>
      cases hu : env.updSuccess with
      | ok _ => simp [growthPattern]
      | error e =>
          have h := debugHandler_growth s
            ({ s with logs := s.logs ++ ["All tests passed successfully"] }) env e rfl (by simp)
          simpa using h
  | false =>
      cases hf : env.fixResult with
      | error e =>
          have h := debugHandler_growth s
            ({ s with logs := s.logs ++ ["Found test failures, attempting fixes"] }) env e rfl
            (by simp)
          simpa using h
      | ok _ =>
      cases hp2 : env.secondRun.1 with
      | true =>
          cases hu : env.updFixed with
          | ok _ => simp [growthPattern]
          | error e =>
              have h := debugHandler_growth s
                ({ s with logs := s.logs ++ ["Found test failures, attempting fixes"]
                            ++ ["Successfully fixed all test failures"] }) env e rfl (by simp)
              simpa using h
      | false =>
          have h := debugHandler_growth s
            ({ s with logs := s.logs ++ ["Found test failures, attempting fixes"] }) env
            "Unable to fix all test failures" rfl (by simp)
          simpa using h

/-- Growth pattern of the free `srs_parser` stage function: the log list
grows on every invocation, and the error list grows exactly on failure. -/
lemma srsParserFn_growth (env : SrsEnv) (s : SrsState) :
    ((srsParserFn env s).state.logs.length > s.logs.length) ∧
    ((srsParserFn env s).state.errors = s.errors ∨
     (srsParserFn env s).state.errors.length > s.errors.length) := by
  simp only [srsParserFn]
  by_cases h0 : s.srs_content = ""
  · simp [h0, srsFail]
  · simp only [h0, if_false]
    cases hdoc : (if ".docx".toList.isSuffixOf s.srs_content.toList then env.docxText
                  else Except.ok s.srs_content) with
    | error e => simp [srsFail, hdoc]
    | ok content =>
      cases hllm : env.llm content with
      | error e => simp [srsFail, hdoc, hllm]
      | ok raw =>
        simp only [hdoc, hllm, srsParseBody]
        simp only [String.toList] at *
        cases hmk : missingKeysIn (analyzeRequirementsParse raw.data) with
        | error e => simp [srsFail, hmk]
        | ok missing =>
          cases hbf : backfillAll (analyzeRequirementsParse raw.data) missing with
          | error e => simp [srsFail, hmk, hbf]
          | ok req2 =>
            by_cases hm : missing.isEmpty <;> simp [hmk, hbf, hm]

/-- C3 counterexample: a failing Project Initialization invocation appends
to BOTH lists (an error entry and a log entry), so "exactly one of the two
lists grows" is false on the code. -/
theorem c3_counterexample :
    ¬ exactlyOneListGrew [] []
        (projectInitializerRun ⟨"p", none, [], []⟩ ⟨.exc "boom", .ok, .ok⟩).state.logs
        (projectInitializerRun ⟨"p", none, [], []⟩ ⟨.exc "boom", .ok, .ok⟩).state.errors := by
  unfold exactlyOneListGrew
  decide

/-- C3 (amended): for every stage invocation that returns a routing
decision, a non-sink route grows exactly the log list (errors unchanged),
while a sink route grows BOTH the error list and the log list; the free
`srs_parser` stage function likewise grows its log list on every call and
its error list exactly on failure. -/
theorem c3_amended_growth :
    (∀ (s : WfState) (env : InitEnv),
       growthPattern s (.ok ((projectInitializerRun s env).state,
         (projectInitializerRun s env).route))) ∧
    (∀ (s : WfState) (env : SrsNodeEnv), growthPattern s (srsParserNodeRun s env)) ∧
    (∀ (s : WfState) (env : TestGenEnv), growthPattern s (testGeneratorRun s env)) ∧
    (∀ (s : WfState) (env : CodeGenEnv), growthPattern s (codeGeneratorRun s env)) ∧
    (∀ (s : WfState) (env : DebugEnv), growthPattern s (debuggerRunT s env).result) ∧
    (∀ (env : SrsEnv) (s : SrsState),
       (srsParserFn env s).state.logs.length > s.logs.length ∧
       ((srsParserFn env s).state.errors = s.errors ∨
        (srsParserFn env s).state.errors.length > s.errors.length)) :=
  ⟨projectInitializerRun_growth, srsParserNodeRun_growth, testGeneratorRun_growth,
   codeGeneratorRun_growth, debuggerRunT_growth, srsParserFn_growth⟩

/-- C3 witness: the growth pattern evaluated on a concrete successful
Project Initialization invocation. -/
theorem c3_amended_growth_witness :
    growthPattern ⟨"p", none, [], []⟩
      (.ok ((projectInitializerRun ⟨"p", none, [], []⟩ ⟨.ok, .ok, .ok⟩).state,
            (projectInitializerRun ⟨"p", none, [], []⟩ ⟨.ok, .ok, .ok⟩).route)) :=
  c3_amended_growth.1 ⟨"p", none, [], []⟩ ⟨.ok, .ok, .ok⟩

/-- C2: the repair sub-routine is invoked at most once per Debugger run;
and when the suite fails on both the first run and the re-run (telemetry
succeeding), the stage appends the repair-exhaustion error entry and
routes to the sink. -/
theorem c2_repair_budget (s : WfState) (env : DebugEnv) :
    (debuggerRunT s env).fixCalls ≤ 1 ∧
    (env.createRun = .ok () → env.firstRun.1 = false → env.fixResult = .ok () →
     env.secondRun.1 = false → env.updError = .ok () →
     ∃ s2, (debuggerRunT s env).result = .ok (s2, "error_handler") ∧
       s2.errors = s.errors ++ ["Debugging error: Unable to fix all test failures"] ∧
       hasSub "Debugging error: Unable to fix all test failures"
         "Unable to fix all test failures" = true) := by
  constructor
  · simp only [debuggerRunT]
    cases hc : env.createRun with
    | error e => simp
    | ok _ =>
      cases hp1 : env.firstRun.1 with
      | true => cases hu : env.updSuccess <;> simp
      | false =>
        cases hf : env.fixResult with
        | error e => simp
        | ok _ => cases hp2 : env.secondRun.1 <;> cases hu : env.updFixed <;> simp
  · intro hc hp1 hf hp2 hu
    refine ⟨{ s with logs := (s.logs ++ ["Found test failures, attempting fixes"]) ++ ["Error during debugging: Unable to fix all test failures"], errors := s.errors ++ ["Debugging error: Unable to fix all test failures"] }, ?_, by simp, by decide⟩
    simp [debuggerRunT, debugHandler, hc, hp1, hf, hp2, hu]

/-- C2 witness: the budget and the double-failure behaviour at a concrete
state and environment. -/
theorem c2_repair_budget_witness :
    (debuggerRunT ⟨"p", none, [], []⟩
        ⟨.ok (), (false, "out1"), .ok (), (false, "out2"), .ok (), .ok (), .ok ()⟩).fixCalls ≤ 1 ∧
    ∃ s2, (debuggerRunT ⟨"p", none, [], []⟩
        ⟨.ok (), (false, "out1"), .ok (), (false, "out2"), .ok (), .ok (), .ok ()⟩).result =
          .ok (s2, "error_handler") ∧
      s2.errors = [] ++ ["Debugging error: Unable to fix all test failures"] ∧
      hasSub "Debugging error: Unable to fix all test failures"
        "Unable to fix all test failures" = true := by
  have h := c2_repair_budget ⟨"p", none, [], []⟩
    ⟨.ok (), (false, "out1"), .ok (), (false, "out2"), .ok (), .ok (), .ok ()⟩
  exact ⟨h.1, h.2 rfl rfl rfl rfl rfl⟩

/-! ### Totality (no escaping exception) lemmas, per node -/

lemma srsParserNodeRun_total (s : WfState) (env : SrsNodeEnv)
    (hu : env.updError = .ok ()) :
    ∃ s2 r, srsParserNodeRun s env = .ok (s2, r) ∧
      (r = "test_generator" ∨ r = "error_handler") := by
  simp only [srsParserNodeRun, srsNodeHandler, hu]
  repeat' split
  all_goals first
    | exact ⟨_, _, rfl, Or.inl rfl⟩
    | exact ⟨_, _, rfl, Or.inr rfl⟩

lemma testGeneratorRun_total (s : WfState) (env : TestGenEnv)
    (hu : env.updError = .ok ()) :
    ∃ s2 r, testGeneratorRun s env = .ok (s2, r) ∧
      (r = "code_generator" ∨ r = "error_handler") := by
  simp only [testGeneratorRun, testGenHandler, hu]
  repeat' split
  all_goals first
    | exact ⟨_, _, rfl, Or.inl rfl⟩
    | exact ⟨_, _, rfl, Or.inr rfl⟩

lemma codeGeneratorRun_total (s : WfState) (env : CodeGenEnv)
    (hc : env.createRun = .ok ()) (hu : env.updError = .ok ()) :
    ∃ s2 r, codeGeneratorRun s env = .ok (s2, r) ∧
      (r = "debugger" ∨ r = "error_handler") := by
  simp only [codeGeneratorRun, codeGenHandler, hc, hu]
  repeat' split
  all_goals first
    | exact ⟨_, _, rfl, Or.inl rfl⟩
    | exact ⟨_, _, rfl, Or.inr rfl⟩

lemma debuggerRunT_total (s : WfState) (env : DebugEnv)
    (hc : env.createRun = .ok ()) (hu : env.updError = .ok ()) :
    ∃ s2 r, (debuggerRunT s env).result = .ok (s2, r) ∧
      (r = "documentation_generator" ∨ r = "error_handler") := by
  simp only [debuggerRunT, debugHandler, hc, hu]
  repeat' split
  all_goals first
    | exact ⟨_, _, rfl, Or.inl rfl⟩
    | exact ⟨_, _, rfl, Or.inr rfl⟩

lemma projectInitializerRun_route (s : WfState) (env : InitEnv) :
    (projectInitializerRun s env).route = "test_generator" ∨
    (projectInitializerRun s env).route = "error_handler" := by
  simp only [projectInitializerRun]
  repeat' split
  all_goals first
    | exact Or.inl rfl
    | exact Or.inr rfl

/-- C9 counterexample: both the Verification/Repair stage and the Code
Generation stage call the telemetry client BEFORE their `try` blocks, so a
telemetry failure there escapes the stage instead of being recorded. -/
theorem c9_counterexample :
    (debuggerRunT ⟨"p", none, [], []⟩
        ⟨.error "telemetry down", (true, ""), .ok (), (true, ""),
         .ok (), .ok (), .ok ()⟩).result = .error "telemetry down" ∧
    codeGeneratorRun ⟨"p", none, [], []⟩
        ⟨.error "telemetry down", .ok (), .ok (), .ok (), .ok (), .ok (), .ok ()⟩ =
      .error "telemetry down" :=
  ⟨rfl, rfl⟩

/-- C9 (amended): failures inside a stage's `try` body are caught,
recorded in the error list and converted to a sink route — provided the
telemetry calls outside the protection (the pre-`try` `create_run` of the
Code Generation and Verification/Repair stages, and the `update_run`
inside each error handler) do not themselves raise. -/
theorem c9_amended_exception_containment :
    (∀ (s : WfState) (env : InitEnv),
       (projectInitializerRun s env).route = "test_generator" ∨
       ((projectInitializerRun s env).route = "error_handler" ∧
        (projectInitializerRun s env).state.errors.length > s.errors.length)) ∧
    (∀ (s : WfState) (env : SrsNodeEnv), env.updError = .ok () →
       ∃ s2 r, srsParserNodeRun s env = .ok (s2, r) ∧
         (r = "test_generator" ∨
          (r = "error_handler" ∧ s2.errors.length > s.errors.length))) ∧
    (∀ (s : WfState) (env : TestGenEnv), env.updError = .ok () →
       ∃ s2 r, testGeneratorRun s env = .ok (s2, r) ∧
         (r = "code_generator" ∨
          (r = "error_handler" ∧ s2.errors.length > s.errors.length))) ∧
    (∀ (s : WfState) (env : CodeGenEnv),
       env.createRun = .ok () → env.updError = .ok () →
       ∃ s2 r, codeGeneratorRun s env = .ok (s2, r) ∧
         (r = "debugger" ∨
          (r = "error_handler" ∧ s2.errors.length > s.errors.length))) ∧
    (∀ (s : WfState) (env : DebugEnv),
       env.createRun = .ok () → env.updError = .ok () →
       ∃ s2 r, (debuggerRunT s env).result = .ok (s2, r) ∧
         (r = "documentation_generator" ∨
          (r = "error_handler" ∧ s2.errors.length > s.errors.length))) := by
  refine ⟨?_, ?_, ?_, ?_, ?_⟩
  · intro s env
    rcases projectInitializerRun_route s env with h | h
    · exact Or.inl h
    · have hg := projectInitializerRun_growth s env
      simp only [growthPattern] at hg
      exact Or.inr ⟨h, (hg.2 h).1⟩
  · intro s env hu
    obtain ⟨s2, r, hres, hr⟩ := srsParserNodeRun_total s env hu
    have hg := srsParserNodeRun_growth s env
    rw [hres] at hg
    simp only [growthPattern] at hg
    rcases hr with h | h
    · exact ⟨s2, r, hres, Or.inl h⟩
    · exact ⟨s2, r, hres, Or.inr ⟨h, (hg.2 h).1⟩⟩
  · intro s env hu
    obtain ⟨s2, r, hres, hr⟩ := testGeneratorRun_total s env hu
    have hg := testGeneratorRun_growth s env
    rw [hres] at hg
    simp only [growthPattern] at hg
    rcases hr with h | h
    · exact ⟨s2, r, hres, Or.inl h⟩
    · exact ⟨s2, r, hres, Or.inr ⟨h, (hg.2 h).1⟩⟩
  · intro s env hc hu
    obtain ⟨s2, r, hres, hr⟩ := codeGeneratorRun_total s env hc hu
    have hg := codeGeneratorRun_growth s env
    rw [hres] at hg
    simp only [growthPattern] at hg
    rcases hr with h | h
    · exact ⟨s2, r, hres, Or.inl h⟩
    · exact ⟨s2, r, hres, Or.inr ⟨h, (hg.2 h).1⟩⟩
  · intro s env hc hu
    obtain ⟨s2, r, hres, hr⟩ := debuggerRunT_total s env hc hu
    have hg := debuggerRunT_growth s env
    rw [hres] at hg
    simp only [growthPattern] at hg
    rcases hr with h | h
    · exact ⟨s2, r, hres, Or.inl h⟩
    · exact ⟨s2, r, hres, Or.inr ⟨h, (hg.2 h).1⟩⟩

/-- C9 witness: containment evaluated for the SRS-parser node at a
concrete failing extraction with healthy telemetry. -/
theorem c9_amended_witness :
    ∃ s2 r, srsParserNodeRun ⟨"p", none, [], []⟩
        ⟨.ok (), .error "docx broken", .ok (), .ok ()⟩ = .ok (s2, r) ∧
      (r = "test_generator" ∨
       (r = "error_handler" ∧
        s2.errors.length > (⟨"p", none, [], []⟩ : WfState).errors.length)) :=
  c9_amended_exception_containment.2.1 ⟨"p", none, [], []⟩
    ⟨.ok (), .error "docx broken", .ok (), .ok ()⟩ rfl


lemma mkdirsModel_existOk (d : List String) (p : String) :
    mkdirsModel d p true = .ok (if p ∈ d then d else d ++ [p]) := by
  unfold mkdirsModel
  split <;> simp

lemma createProjectStructureDirs_isOk (dirs : List String) :
    ∃ d2, createProjectStructureDirs dirs = .ok d2 := by
  have key : ∀ (ps : List String) (d : List String),
      ∃ d2, ps.foldlM (fun d p => mkdirsModel d p true) d = .ok d2 := by
    intro ps
    induction ps with
    | nil => intro d; exact ⟨d, rfl⟩
    | cons p ps ih =>
        intro d
        rw [List.foldlM_cons, mkdirsModel_existOk]
        simpa using ih (if p ∈ d then d else d ++ [p])
  exact key projectDirs dirs

lemma createProjectStructureDirs_idem (dirs : List String)
    (h : ∀ p ∈ projectDirs, p ∈ dirs) : createProjectStructureDirs dirs = .ok dirs := by
  have key : ∀ (ps : List String), (∀ p ∈ ps, p ∈ dirs) →
      ps.foldlM (fun d p => mkdirsModel d p true) dirs = .ok dirs := by
    intro ps
    induction ps with
    | nil => intro _; rfl
    | cons p ps ih =>
        intro hall
        have hp : p ∈ dirs := hall p (List.mem_cons_self p ps)
        rw [List.foldlM_cons, mkdirsModel_existOk, if_pos hp]
        simpa using ih (fun q hq => hall q (List.mem_cons_of_mem p hq))
  exact key projectDirs h

/-- C8 counterexample: when the database bring-up fails with an exception
that is not a `CalledProcessError` (e.g. the `podman` binary missing), the
single error entry is identical to the one a failing environment bring-up
would produce and names no activity at all — so the entry does not name
the first failing activity. -/
theorem c8_counterexample :
    (projectInitializerRun ⟨"p", none, [], []⟩ ⟨.ok, .exc "boom", .ok⟩).state.errors =
      ["Project initialization error: boom"] ∧
    (projectInitializerRun ⟨"p", none, [], []⟩ ⟨.ok, .ok, .exc "boom"⟩).state.errors =
      ["Project initialization error: boom"] ∧
    hasSub "Project initialization error: boom" "Podman" = false ∧
    hasSub "Project initialization error: boom" "PostgreSQL" = false ∧
    hasSub "Project initialization error: boom" "postgres" = false ∧
    hasSub "Project initialization error: boom" "database" = false := by
  refine ⟨rfl, rfl, by decide, by decide, by decide, by decide⟩

/-- C8 (amended): the three activities run sequentially and
unconditionally; the first failure aborts the remaining activities and
appends exactly one error entry wrapping the failing exception's message —
an entry that names the failing activity whenever that activity's own
wrapper applied (always for directory layout, only for
`CalledProcessError` in the two subprocess activities); the stage then
routes to the sink, whose graph node is terminal, so Test-Suite Generation
never executes; and directory creation passes `exist_ok`, so it succeeds
even when every target directory already exists. -/
theorem c8_amended_init_stage :
    (∀ (s : WfState) (env : InitEnv),
       env.structureOutcome = .ok → env.postgresOutcome = .ok → env.venvOutcome = .ok →
       projectInitializerRun s env =
         ⟨{ s with logs := s.logs ++ ["Successfully initialized project structure"] },
          "test_generator",
          ["create_project_structure", "setup_podman_postgres",
           "create_virtual_environment"]⟩) ∧
    (∀ (s : WfState) (env : InitEnv) (m : String),
       (env.structureOutcome = .cpe m ∨ env.structureOutcome = .exc m) →
       (projectInitializerRun s env).invoked = ["create_project_structure"] ∧
       (projectInitializerRun s env).route = "error_handler" ∧
       (projectInitializerRun s env).state.errors =
         s.errors ++
           ["Project initialization error: Error creating project structure: " ++ m]) ∧
    (∀ (s : WfState) (env : InitEnv) (m : String),
       env.structureOutcome = .ok → env.postgresOutcome = .cpe m →
       (projectInitializerRun s env).invoked =
         ["create_project_structure", "setup_podman_postgres"] ∧
       (projectInitializerRun s env).route = "error_handler" ∧
       (projectInitializerRun s env).state.errors =
         s.errors ++
           ["Project initialization error: Error setting up Podman PostgreSQL: " ++ m]) ∧
    (∀ (s : WfState) (env : InitEnv) (m : String),
       env.structureOutcome = .ok → env.postgresOutcome = .ok →
       env.venvOutcome = .cpe m →
       (projectInitializerRun s env).invoked =
         ["create_project_structure", "setup_podman_postgres",
          "create_virtual_environment"] ∧
       (projectInitializerRun s env).route = "error_handler" ∧
       (projectInitializerRun s env).state.errors =
         s.errors ++
           ["Project initialization error: Error creating virtual environment: " ++ m]) ∧
    (nextNodeAfter "project_initializer" "error_handler" = some "error_handler" ∧
     ∀ r, nextNodeAfter "error_handler" r = none) ∧
    (∀ dirs : List String,
       (∃ d2, createProjectStructureDirs dirs = .ok d2) ∧
       ((∀ p ∈ projectDirs, p ∈ dirs) → createProjectStructureDirs dirs = .ok dirs)) := by
  refine ⟨?_, ?_, ?_, ?_, ⟨by decide, ?_⟩, ?_⟩
  · intro s env h1 h2 h3
    simp [projectInitializerRun, runActivity, h1, h2, h3]
  · intro s env m h1
    rcases h1 with h | h <;>
      (simp [projectInitializerRun, runActivity, initFail, h]; rw [← String.append_assoc]; rfl)
  · intro s env m h1 h2
    simp [projectInitializerRun, runActivity, initFail, h1, h2]
    rw [← String.append_assoc]
    rfl
  · intro s env m h1 h2 h3
    simp [projectInitializerRun, runActivity, initFail, h1, h2, h3]
    rw [← String.append_assoc]
    rfl
  · intro r
    simp [nextNodeAfter, workflowEdges, condHolds]
  · intro dirs
    exact ⟨createProjectStructureDirs_isOk dirs, createProjectStructureDirs_idem dirs⟩

/-- C8 witness: the database bring-up failing as a `CalledProcessError` at
a concrete state: layout ran, environment bring-up did not, the single
error entry names the Podman PostgreSQL activity, and the route is the
sink. -/
theorem c8_amended_witness :
    (projectInitializerRun ⟨"p", none, [], []⟩ ⟨.ok, .cpe "exit status 1", .ok⟩).invoked =
      ["create_project_structure", "setup_podman_postgres"] ∧
    (projectInitializerRun ⟨"p", none, [], []⟩ ⟨.ok, .cpe "exit status 1", .ok⟩).route =
      "error_handler" ∧
    (projectInitializerRun ⟨"p", none, [], []⟩
        ⟨.ok, .cpe "exit status 1", .ok⟩).state.errors =
      [] ++ ["Project initialization error: Error setting up Podman PostgreSQL: " ++
             "exit status 1"] :=
  c8_amended_init_stage.2.2.1 ⟨"p", none, [], []⟩ ⟨.ok, .cpe "exit status 1", .ok⟩
    "exit status 1" rfl rfl

/-- C6 counterexample: the error entry produced for an empty source
reference is `SRS parsing error: Empty SRS content`, which does not
contain the lowercase substring `empty` the claim requires. -/
theorem c6_counterexample :
    (srsParserFn ⟨.ok "", fun _ => .ok "x"⟩ ⟨"", none, [], []⟩).state.errors =
      ["SRS parsing error: Empty SRS content"] ∧
    hasSub "SRS parsing error: Empty SRS content" "empty" = false := by
  exact ⟨rfl, by decide⟩

/-- C6 (amended): an empty source reference makes the `srs_parser` stage
function fail before any LLM completion request, appending an error entry
that contains the capitalized substring `Empty` (not the claim's lowercase
`empty`); the node class wired into the workflow graph performs no
emptiness check of its own but routes to the sink whenever its document
extraction fails. -/
theorem c6_amended_empty_input :
    (∀ (env : SrsEnv) (s : SrsState), s.srs_content = "" →
       (srsParserFn env s).llmCalled = false ∧
       (srsParserFn env s).state.errors =
         s.errors ++ ["SRS parsing error: Empty SRS content"] ∧
       hasSub "SRS parsing error: Empty SRS content" "Empty" = true) ∧
    (∀ (s : WfState) (env : SrsNodeEnv) (m : String),
       env.createRun = .ok () → env.extract = .error m → env.updError = .ok () →
       ∃ s2, srsParserNodeRun s env = .ok (s2, "error_handler")) := by
  constructor
  · intro env s h
    refine ⟨?_, ?_, by decide⟩ <;> simp [srsParserFn, srsFail, h]
  · intro s env m hc hx hu
    refine ⟨{ s with errors := s.errors ++ ["Error parsing SRS document: " ++ ("Error extracting requirements: " ++ m)], logs := s.logs ++ ["Failed to parse SRS document"] }, ?_⟩
    simp [srsParserNodeRun, srsNodeHandler, hc, hx, hu]

/-- C6 witness: the amended behaviour at the concrete empty reference. -/
theorem c6_amended_witness :
    (srsParserFn ⟨.ok "", fun _ => .ok "x"⟩ ⟨"", none, [], []⟩).llmCalled = false ∧
    (srsParserFn ⟨.ok "", fun _ => .ok "x"⟩ ⟨"", none, [], []⟩).state.errors =
      [] ++ ["SRS parsing error: Empty SRS content"] ∧
    hasSub "SRS parsing error: Empty SRS content" "Empty" = true :=
  c6_amended_empty_input.1 ⟨.ok "", fun _ => .ok "x"⟩ ⟨"", none, [], []⟩ rfl

/-! ### Failing-file extraction and the repair pass (C7) -/

lemma foldl_failed_extract (L : List (List Char)) (acc : List String) :
    L.foldl (fun acc2 line =>
      if isFailedLine (stripList line) then acc2 ++ [failedLinePath (stripList line)]
      else acc2) acc =
    acc ++ ((L.map stripList).filter isFailedLine).map failedLinePath := by
  induction L generalizing acc with
  | nil => simp
  | cons x L ih =>
      by_cases h : isFailedLine (stripList x) = true <;>
        simp [List.foldl_cons, List.filter_cons, h, ih]

lemma writeFs_hasKey (fs : List (String × String)) (q c p : String)
    (h : fsHasKey fs p = true) : fsHasKey (writeFs fs q c) p = true := by
  unfold fsHasKey at h ⊢
  unfold writeFs
  by_cases hq : fs.any (fun e => e.1 == q) = true
  · rw [if_pos hq]
    simp only [List.any_eq_true] at h ⊢
    obtain ⟨e, he, hep⟩ := h
    by_cases heq : (e.1 == q) = true
    · refine ⟨(q, c), List.mem_map.mpr ⟨e, he, by simp [heq]⟩, ?_⟩
      have h1 : e.1 = q := by simpa using heq
      have h2 : e.1 = p := by simpa using hep
      simp [← h1, h2]
    · exact ⟨e, List.mem_map.mpr ⟨e, he, by simp [heq]⟩, hep⟩
  · rw [if_neg hq]
    simp only [List.any_eq_true] at h ⊢
    obtain ⟨e, he, hep⟩ := h
    exact ⟨e, List.mem_append_left _ he, hep⟩

lemma readFs_isOk (fs : List (String × String)) (p : String)
    (h : fsHasKey fs p = true) : ∃ c, readFs fs p = .ok c := by
  unfold fsHasKey at h
  unfold readFs
  cases hf : fs.find? (fun e => e.1 == p) with
  | some e => exact ⟨e.2, rfl⟩
  | none =>
      rw [List.find?_eq_none] at hf
      simp only [List.any_eq_true] at h
      obtain ⟨e, he, hep⟩ := h
      exact absurd hep (by simpa using hf e he)

lemma fixLoop_processes (out : String) (llm : String → String) :
    ∀ (ps : List String) (fs : List (String × String)) (processed : List String),
      (∀ p ∈ ps, fsHasKey fs p = true) →
      ∃ fs2, fixLoop out llm ps fs processed = .ok (fs2, processed ++ ps) := by
  intro ps
  induction ps with
  | nil => intro fs processed _; exact ⟨fs, by simp [fixLoop]⟩
  | cons p ps ih =>
      intro fs processed hall
      have hp := hall p (List.mem_cons_self p ps)
      obtain ⟨c, hc⟩ := readFs_isOk fs p hp
      have hrest : ∀ q ∈ ps,
          fsHasKey (writeFs fs p (llm (createDebugPrompt out c))) q = true :=
        fun q hq => writeFs_hasKey fs p _ q (hall q (List.mem_cons_of_mem p hq))
      obtain ⟨fs2, hfs2⟩ := ih (writeFs fs p (llm (createDebugPrompt out c)))
        (processed ++ [p]) hrest
      refine ⟨fs2, ?_⟩
      simp [fixLoop, hc, hfs2]

/-- C7 counterexample: the extractor does NOT de-duplicate — a file with
two FAILED lines appears twice, and the repair pass reads, prompts and
overwrites it twice. -/
theorem c7_counterexample :
    extractFailingFiles "tests/test_a.py::t1 FAILED\ntests/test_a.py::t2 FAILED" =
      ["generated_api/tests/test_a.py", "generated_api/tests/test_a.py"] ∧
    ¬ (extractFailingFiles
        "tests/test_a.py::t1 FAILED\ntests/test_a.py::t2 FAILED").Nodup ∧
    fixTestFailures "tests/test_a.py::t1 FAILED\ntests/test_a.py::t2 FAILED"
        (fun _ => "fixed") [("generated_api/tests/test_a.py", "old")] =
      .ok ([("generated_api/tests/test_a.py", "fixed")],
           ["generated_api/tests/test_a.py", "generated_api/tests/test_a.py"]) := by
  refine ⟨by decide, by decide, by rfl⟩

/-- C7 (amended): the extractor maps the test output to one path per
stripped FAILED line, in line order, duplicates retained; the repair pass
then reads, prompts and overwrites once per LIST ENTRY (so a file that
fails on several lines is processed once per such line). -/
theorem c7_amended_failing_files (out : String) (llm : String → String)
    (fs : List (String × String))
    (h : ∀ p ∈ extractFailingFiles out, fsHasKey fs p = true) :
    extractFailingFiles out = (failedLinesOf out).map failedLinePath ∧
    ∃ fs2, fixTestFailures out llm fs = .ok (fs2, extractFailingFiles out) := by
  constructor
  · simpa [extractFailingFiles, failedLinesOf] using
      foldl_failed_extract (splitLinesList out.toList) []
  · obtain ⟨fs2, hfs2⟩ := fixLoop_processes out llm (extractFailingFiles out) fs [] h
    exact ⟨fs2, by simp [fixTestFailures, hfs2]⟩

/-- C7 witness: the amended characterization at a concrete two-line
failure report over a concrete filesystem. -/
theorem c7_amended_witness :
    extractFailingFiles "tests/test_a.py::t1 FAILED\ntest_b.py::t2 FAILED" =
      (failedLinesOf "tests/test_a.py::t1 FAILED\ntest_b.py::t2 FAILED").map
        failedLinePath ∧
    ∃ fs2, fixTestFailures "tests/test_a.py::t1 FAILED\ntest_b.py::t2 FAILED"
        (fun _ => "fixed")
        [("generated_api/tests/test_a.py", "a"), ("generated_api/tests/test_b.py", "b")] =
      .ok (fs2, extractFailingFiles "tests/test_a.py::t1 FAILED\ntest_b.py::t2 FAILED") :=
  c7_amended_failing_files "tests/test_a.py::t1 FAILED\ntest_b.py::t2 FAILED"
    (fun _ => "fixed")
    [("generated_api/tests/test_a.py", "a"), ("generated_api/tests/test_b.py", "b")]
    (by decide)

/-- C4 counterexample: on an outright JSON decode failure the extraction
returns the sentinel fallback — `functional_requirements` holds the string
`Failed to parse requirements`, not the empty default — and, since the
fallback carries all four keys, NO warning log entry is appended (the only
log entry is the success message). -/
theorem c4_counterexample :
    (srsParserFn ⟨.ok "", fun _ => .ok "garbage"⟩
        ⟨"some srs text", none, [], []⟩).state.requirements =
      some fallbackRequirements ∧
    fallbackRequirements ≠ specEmptyDefaults ∧
    jsonGetKey fallbackRequirements "functional_requirements" =
      some (.arr [.str "Failed to parse requirements"]) ∧
    (srsParserFn ⟨.ok "", fun _ => .ok "garbage"⟩
        ⟨"some srs text", none, [], []⟩).state.logs =
      ["Successfully parsed SRS document"] := by
  refine ⟨rfl, ?_, rfl, rfl⟩
  intro h
  simp [fallbackRequirements, specEmptyDefaults] at h

/-- C4 (amended): if JSON decoding of the completion-response slice fails
outright, extraction does not fail the pipeline, but instead of empty-key
backfill plus a warning, `analyze_requirements` returns its sentinel
fallback object (all four keys present, `functional_requirements`
containing the string `Failed to parse requirements`), and consequently
zero warning entries are logged — only the success log entry is appended
and the error list is untouched. -/
theorem c4_amended_decode_fallback (env : SrsEnv) (s : SrsState) (raw : String)
    (h0 : ¬ s.srs_content = "")
    (h1 : ".docx".toList.isSuffixOf s.srs_content.toList = false)
    (h2 : env.llm s.srs_content = .ok raw)
    (h3 : pyDecodePolicy raw.toList = none) :
    (srsParserFn env s).state.requirements = some fallbackRequirements ∧
    (srsParserFn env s).state.logs = s.logs ++ ["Successfully parsed SRS document"] ∧
    (srsParserFn env s).state.errors = s.errors ∧
    jsonGetKey fallbackRequirements "functional_requirements" =
      some (.arr [.str "Failed to parse requirements"]) := by
  have h3a : pyDecodePolicy raw.data = none := h3
  have hfall : analyzeRequirementsParse raw.data = fallbackRequirements := by
    simp [analyzeRequirementsParse, h3a]
  have hmk : missingKeysIn fallbackRequirements = .ok [] := rfl
  have hbf : backfillAll fallbackRequirements [] = .ok fallbackRequirements := rfl
  simp [List.isSuffixOf] at h1
  refine ⟨?_, ?_, ?_, rfl⟩ <;>
    simp [srsParserFn, List.isSuffixOf, h0, h1, h2, srsParseBody, hfall, hmk, hbf]

/-- C4 witness: the amended fallback behaviour on the concrete
un-decodable completion response `garbage`. -/
theorem c4_amended_witness :
    (srsParserFn ⟨.ok "", fun _ => .ok "garbage"⟩
        ⟨"some srs text", none, [], []⟩).state.requirements =
      some fallbackRequirements ∧
    (srsParserFn ⟨.ok "", fun _ => .ok "garbage"⟩
        ⟨"some srs text", none, [], []⟩).state.logs =
      [] ++ ["Successfully parsed SRS document"] ∧
    (srsParserFn ⟨.ok "", fun _ => .ok "garbage"⟩
        ⟨"some srs text", none, [], []⟩).state.errors = [] ∧
    jsonGetKey fallbackRequirements "functional_requirements" =
      some (.arr [.str "Failed to parse requirements"]) :=
  c4_amended_decode_fallback ⟨.ok "", fun _ => .ok "garbage"⟩
    ⟨"some srs text", none, [], []⟩ "garbage" (by decide) (by decide) rfl rfl

/-! ### Locating the JSON slice (C5) -/

lemma pyFind_append_head (pre rest : List Char) (c : Char)
    (hpre : c ∉ pre) (hhead : rest.head? = some c) :
    pyFind (pre ++ rest) c = (pre.length : Int) := by
  induction pre with
  | nil =>
      cases rest with
      | nil => simp at hhead
      | cons a t =>
          simp only [List.head?_cons, Option.some.injEq] at hhead
          subst hhead
          simp [pyFind]
  | cons a pre ih =>
      have hane : ¬ a = c := fun hh => hpre (by simp [hh])
      have hpre2 : c ∉ pre := fun hh => hpre (List.mem_cons_of_mem _ hh)
      have ihv := ih hpre2
      have hnn : ¬ ((pre.length : Int) < 0) := by omega
      rw [List.cons_append]
      conv_lhs => rw [pyFind]
      simp only [hane, if_false, ihv, hnn]
      simp

lemma pyRFind_not_mem (l : List Char) (c : Char) (h : c ∉ l) : pyRFind l c = -1 := by
  induction l with
  | nil => rfl
  | cons a l ih =>
      have hane : ¬ a = c := fun hh => h (by simp [hh])
      have h2 : c ∉ l := fun hh => h (List.mem_cons_of_mem _ hh)
      simp [pyRFind, ih h2, hane]

lemma pyRFind_append_right (xs post : List Char) (c : Char) (hpost : c ∉ post) :
    pyRFind (xs ++ post) c = pyRFind xs c := by
  induction xs with
  | nil => simpa [pyRFind] using pyRFind_not_mem post c hpost
  | cons a xs ih =>
      rw [List.cons_append]
      conv_lhs => rw [pyRFind]
      conv_rhs => rw [pyRFind]
      simp only [ih]

lemma pyRFind_getLast (l : List Char) (c : Char) (h : l.getLast? = some c) :
    pyRFind l c = (l.length : Int) - 1 := by
  induction l with
  | nil => simp at h
  | cons a l ih =>
      cases l with
      | nil =>
          simp only [List.getLast?_singleton, Option.some.injEq] at h
          subst h
          simp [pyRFind]
      | cons b t =>
          have h2 : (b :: t).getLast? = some c := by
            rw [← h]
            exact (List.getLast?_cons_cons).symm
          have ihv := ih h2
          have hge : ((b :: t).length : Int) - 1 ≥ 0 := by simp
          conv_lhs => rw [pyRFind]
          simp only [ihv, hge, if_true]
          simp only [List.length_cons]
          push_cast
          omega

/-- The decode policy applied to `pre ++ s ++ post`, where `pre` contains
no `'{'`, `post` contains no `'}'`, and `s` is a brace-delimited decodable
JSON text: exactly `s` is sliced out and decoded. -/
lemma pyDecodePolicy_embedded (pre s post : List Char) (v : Json)
    (hpre : '{' ∉ pre) (hpost : '}' ∉ post)
    (hhead : s.head? = some '{') (hlast : s.getLast? = some '}')
    (hparse : parseJson s = some v) :
    pyDecodePolicy (pre ++ s ++ post) = some v := by
  have hsne : s ≠ [] := by cases s <;> simp_all
  have hfind : pyFind (pre ++ s ++ post) '{' = (pre.length : Int) := by
    rw [List.append_assoc]
    refine pyFind_append_head pre (s ++ post) '{' hpre ?_
    rw [List.head?_append_of_ne_nil s hsne]
    exact hhead
  have hrfind : pyRFind (pre ++ s ++ post) '}' = ((pre ++ s).length : Int) - 1 := by
    rw [pyRFind_append_right (pre ++ s) post '}' hpost]
    exact pyRFind_getLast (pre ++ s) '}'
      (by rw [List.getLast?_append_of_ne_nil pre hsne]; exact hlast)
  have hslen : 0 < s.length := List.length_pos.mpr hsne
  simp only [pyDecodePolicy, hfind, hrfind]
  have hcond : (pre.length : Int) ≥ 0 ∧
      ((pre ++ s).length : Int) - 1 + 1 > (pre.length : Int) := by
    simp only [List.length_append]
    constructor
    · omega
    · push_cast
      omega
  rw [if_pos hcond]
  have htn1 : ((pre.length : Int)).toNat = pre.length := by omega
  have htn2 : (((pre ++ s).length : Int) - 1 + 1 - (pre.length : Int)).toNat = s.length := by
    simp only [List.length_append]
    omega
  rw [htn1, htn2]
  rw [List.append_assoc, List.drop_left, List.take_left]
  exact hparse

lemma except_ok_bind {ε α β : Type} (a : α) (f : α → Except ε β) :
    (Except.ok a >>= f : Except ε β) = f a := rfl

lemma except_pure_eq {ε α : Type} (a : α) : (pure a : Except ε α) = Except.ok a := rfl

/-- C5: a completion response that embeds a decodable brace-delimited JSON
object carrying all four top-level keys — with arbitrary brace-free noise
before and after it — is extracted losslessly: the stage stores exactly
the parsed object (fields in order, no data loss), appends only the
success log entry (zero warnings), and leaves the error list unchanged. -/
theorem c5_roundtrip_extraction (env : SrsEnv) (st : SrsState) (raw : String)
    (pre s post : List Char) (fs : List (String × Json))
    (h0 : ¬ st.srs_content = "")
    (h1 : ".docx".toList.isSuffixOf st.srs_content.toList = false)
    (h2 : env.llm st.srs_content = .ok raw)
    (hraw : raw.toList = pre ++ s ++ post)
    (hpre : '{' ∉ pre) (hpost : '}' ∉ post)
    (hhead : s.head? = some '{') (hlast : s.getLast? = some '}')
    (hparse : parseJson s = some (Json.obj fs))
    (k1 : fs.any (fun p => p.1 == "functional_requirements") = true)
    (k2 : fs.any (fun p => p.1 == "api_endpoints") = true)
    (k3 : fs.any (fun p => p.1 == "db_schema") = true)
    (k4 : fs.any (fun p => p.1 == "auth_requirements") = true) :
    srsParserFn env st =
      ⟨{ st with requirements := some (Json.obj fs),
                 logs := st.logs ++ ["Successfully parsed SRS document"] }, true⟩ := by
  have hfall : analyzeRequirementsParse raw.data = Json.obj fs := by
    have hemb := pyDecodePolicy_embedded pre s post (Json.obj fs) hpre hpost hhead hlast hparse
    have hr : raw.data = pre ++ s ++ post := hraw
    rw [analyzeRequirementsParse, hr, hemb]
    rfl
  have hmk : missingKeysIn (Json.obj fs) = .ok [] := by
    simp only [missingKeysIn, requiredKeys, List.foldlM_cons, List.foldlM_nil, pyIn,
      except_ok_bind, except_pure_eq, k1, k2, k3, k4, if_true]
  have hbf : backfillAll (Json.obj fs) [] = .ok (Json.obj fs) := rfl
  simp [List.isSuffixOf] at h1
  simp [srsParserFn, List.isSuffixOf, h0, h1, h2, srsParseBody, hfall, hmk, hbf]

set_option maxRecDepth 1000000 in
/-- C5 witness: Scenario B — the four-key JSON object wrapped in `noise `
and ` trailing` decodes to exactly the embedded object with zero warnings
and untouched errors. -/
theorem c5_roundtrip_extraction_witness :
    srsParserFn
      ⟨.ok "",
       fun _ => .ok ("noise \x7b\"functional_requirements\":[],\"api_endpoints\":[],\"db_schema\":\x7b\"tables\":[]\x7d,\"auth_requirements\":\x7b\"type\":\"Unknown\",\"features\":[]\x7d\x7d trailing")⟩
      ⟨"some srs text", none, [], []⟩ =
    ⟨⟨"some srs text",
      some (Json.obj
        [("functional_requirements", Json.arr []),
         ("api_endpoints", Json.arr []),
         ("db_schema", Json.obj [("tables", Json.arr [])]),
         ("auth_requirements",
          Json.obj [("type", Json.str "Unknown"), ("features", Json.arr [])])]),
      ["Successfully parsed SRS document"], []⟩, true⟩ :=
  c5_roundtrip_extraction
    ⟨.ok "",
     fun _ => .ok ("noise \x7b\"functional_requirements\":[],\"api_endpoints\":[],\"db_schema\":\x7b\"tables\":[]\x7d,\"auth_requirements\":\x7b\"type\":\"Unknown\",\"features\":[]\x7d\x7d trailing")⟩
    ⟨"some srs text", none, [], []⟩
    "noise \x7b\"functional_requirements\":[],\"api_endpoints\":[],\"db_schema\":\x7b\"tables\":[]\x7d,\"auth_requirements\":\x7b\"type\":\"Unknown\",\"features\":[]\x7d\x7d trailing"
    "noise ".toList
    "\x7b\"functional_requirements\":[],\"api_endpoints\":[],\"db_schema\":\x7b\"tables\":[]\x7d,\"auth_requirements\":\x7b\"type\":\"Unknown\",\"features\":[]\x7d\x7d".toList
    " trailing".toList
    [("functional_requirements", Json.arr []),
     ("api_endpoints", Json.arr []),
     ("db_schema", Json.obj [("tables", Json.arr [])]),
     ("auth_requirements",
      Json.obj [("type", Json.str "Unknown"), ("features", Json.arr [])])]
    (by decide) (by decide) rfl rfl (by decide) (by decide) rfl rfl rfl
    (by decide) (by decide) (by decide) (by decide)

/-- C1 witness: the amended edge map evaluated on the routes the nodes
actually return. -/
theorem c1_amended_stage_order_witness :
    workflowEntryPoint = "project_initializer" ∧
    nextNodeAfter "project_initializer" "test_generator" = some "srs_parser" ∧
    nextNodeAfter "srs_parser" "test_generator" = some "test_generator" ∧
    nextNodeAfter "debugger" "documentation_generator" = some "complete" ∧
    nextNodeAfter "srs_parser" "error_handler" = some "error_handler" := by
  have h := c1_amended_stage_order
  have h2 := h.2.1 "test_generator" (by decide)
  have h3 := h.2.1 "documentation_generator" (by decide)
  have h4 := h.2.2 "srs_parser" (by simp)
  exact ⟨h.1, h2.1, h2.2.1, h3.2.2.2.2, h4⟩
